import Mathlib

/-!
Verification development for the Ergast API client module (fastf1/ergast.py).

The module is shallowly embedded: JSON values decoded by the client are an
inductive type, Python dicts become association lists with Python dict
semantics (unique keys, insertion order, in-place replacement on update),
Python exceptions become an explicit error type, and every fallible piece of
code returns an Except value.
-/

set_option autoImplicit false

namespace Ergast

/-- Symbolic model of a Python float as produced by the built-in float
conversion inside the normalizer.  The code only ever constructs floats
(float applied to an int default or to a decoded JSON value) and never
computes with them, so the conversion is kept symbolic: a float is tagged by
the int or the string token it was converted from. -/
inductive PyFloat where
  | ofInt (n : Int)
  | ofString (s : String)
  deriving DecidableEq, Repr

/-- JSON-like values manipulated by the client after json.loads, plus the two
kinds of opaque back-reference cells the normalizer stores under the
hidden __ErgastResponse column: respItem wraps the original record by value
(the pure, value-semantics model) and respRef holds a heap address (the heap
model used for the mutation analysis). -/
inductive JVal where
  | null
  | str (s : String)
  | int (n : Int)
  | float (f : PyFloat)
  | list (elems : List JVal)
  | obj (fields : List (String × JVal))
  | respItem (orig : JVal)
  | respRef (addr : Nat)
  deriving Repr

/-- Python exceptions that the embedded code can raise.  ergastJson and
ergastInvalid are the two exception classes defined by the module itself
(ErgastJsonException, ErgastInvalidRequest); the rest are builtin Python
exceptions.  Where the precise builtin exception class is not relevant to any
claim (e.g. iterating a non-sequence), one representative class is used and
noted at the raise site. -/
inductive PyExc where
  | ergastJson (msg : String)
  | ergastInvalid (msg : String)
  | keyError (key : String)
  | indexError
  | typeError
  | attributeError
  | valueError
  | unboundLocal (name : String)
  deriving DecidableEq, Repr

/-- Outcome of one HTTP request as delivered by the cache collaborator:
status code plus raw content of some type γ (the bytes are never inspected
directly by the module, only passed to a decoder). -/
structure HttpResponse (γ : Type) where
  status_code : Nat
  content : γ

/-! ## Python dict operations on association lists

Records decoded from JSON are dicts: keys are unique and insertion order is
preserved.  They are modelled as association lists; lookup takes the first
matching key, pop removes it, and assignment replaces the value in place when
the key exists and appends otherwise, exactly as Python dicts behave. -/

/-- Python d.get(key) / d[key] lookup result (first matching key). -/
def dictGet : List (String × JVal) → String → Option JVal
  | [], _ => none
  | (k, v) :: rest, key => if k = key then some v else dictGet rest key

/-- Python d.get(key, default). -/
def dictGetD (d : List (String × JVal)) (key : String) (dflt : JVal) : JVal :=
  (dictGet d key).getD dflt

/-- Python d.pop(key, None) restricted to its effect on the dict: the first
entry with the given key is removed (keys are unique in a dict). -/
def dictPop : List (String × JVal) → String → List (String × JVal)
  | [], _ => []
  | (k, v) :: rest, key => if k = key then rest else (k, v) :: dictPop rest key

/-- Python d[key] = v (also one step of d.update): replace in place when the
key is present, append otherwise. -/
def dictSet : List (String × JVal) → String → JVal → List (String × JVal)
  | [], key, v => [(key, v)]
  | (k, w) :: rest, key, v =>
      if k = key then (k, v) :: rest else (k, w) :: dictSet rest key v

/-- Python truthiness of a value, as tested by the walrus-if in the
normalizer.  A symbolic float converted from a string token is treated as
truthy; in the embedded code floats only ever occur as freshly created Lat
and Long column values, which are never truth-tested. -/
def truthy : JVal → Bool
  | .null => false
  | .str s => !(s = "")
  | .int n => !(n = 0)
  | .float (.ofInt n) => !(n = 0)
  | .float (.ofString _) => true
  | .list l => !l.isEmpty
  | .obj f => !f.isEmpty
  | .respItem _ => true
  | .respRef _ => true

/-- Python float(v).  Conversion from a string is kept symbolic (the API
serves decimal tokens); conversion from null, a sequence or a mapping raises
a TypeError, as in Python. -/
def pyFloat : JVal → Except PyExc PyFloat
  | .int n => .ok (.ofInt n)
  | .float f => .ok f
  | .str s => .ok (.ofString s)
  | _ => .error .typeError

/-! ## Result normalizer (ErgastResultFrame._prepare_response)

The source first deep-copies the response, then flattens each copied record
in place and stores, under the hidden __ErgastResponse key, an opaque item
pointing at the corresponding original (non-copied) record.  The pure model
below works with values, so the deep copy is the identity on record values
and the back-reference carries the original record value; the heap model
further down makes the copy/pointer distinction explicit for the mutation
claim. -/

/-- Step one of the per-record flattening:
if drv := record.pop(Driver, None): record.update(Driver = drv.get(code, ""),
DriverNumber = drv.get(permanentNumber, "")).  Note that pop removes the key
even when the popped value is falsy (e.g. an empty mapping), in which case
the update is skipped.  Calling .get on a truthy non-mapping raises an
AttributeError. -/
def flattenDriver (r : List (String × JVal)) : Except PyExc (List (String × JVal)) :=
  match dictGet r "Driver" with
  | none => .ok r
  | some drv =>
    let r1 := dictPop r "Driver"
    if truthy drv then
      match drv with
      | .obj d =>
          .ok (dictSet (dictSet r1 "Driver" (dictGetD d "code" (.str "")))
                "DriverNumber" (dictGetD d "permanentNumber" (.str "")))
      | _ => .error .attributeError
    else .ok r1

/-- The list comprehension over the Constructors entry: each element must be
a mapping, whose name field is read with default empty string; a non-mapping
element raises (AttributeError on .get). -/
def constructorNames : List JVal → Except PyExc (List JVal)
  | [] => .ok []
  | .obj d :: rest =>
      match constructorNames rest with
      | .error e => .error e
      | .ok names => .ok (dictGetD d "name" (.str "") :: names)
  | _ :: _ => .error .attributeError

/-- Step two of the per-record flattening:
if constr := record.pop(Constructors, None): record.update(Constructors =
[e.get(name, "") for e in constr]).  A truthy non-sequence value raises when
iterated or when an element lacks .get; one representative exception class is
used. -/
def flattenConstructors (r : List (String × JVal)) : Except PyExc (List (String × JVal)) :=
  match dictGet r "Constructors" with
  | none => .ok r
  | some c =>
    let r1 := dictPop r "Constructors"
    if truthy c then
      match c with
      | .list es =>
          match constructorNames es with
          | .error e => .error e
          | .ok names => .ok (dictSet r1 "Constructors" (.list names))
      | _ => .error .typeError
    else .ok r1

/-- Step three of the per-record flattening:
if loc := record.pop(Location, None): record.update(Lat = float(loc.get(lat,
0)), Long = float(loc.get(long, 0)), Locality = loc.get(locality, ""),
Country = loc.get(country, "")).  The dict literal evaluates the two float
conversions left to right before the update is applied. -/
def flattenLocation (r : List (String × JVal)) : Except PyExc (List (String × JVal)) :=
  match dictGet r "Location" with
  | none => .ok r
  | some loc =>
    let r1 := dictPop r "Location"
    if truthy loc then
      match loc with
      | .obj d =>
          match pyFloat (dictGetD d "lat" (.int 0)) with
          | .error e => .error e
          | .ok la =>
            match pyFloat (dictGetD d "long" (.int 0)) with
            | .error e => .error e
            | .ok lo =>
              .ok (dictSet (dictSet (dictSet (dictSet r1
                    "Lat" (.float la))
                    "Long" (.float lo))
                    "Locality" (dictGetD d "locality" (.str "")))
                    "Country" (dictGetD d "country" (.str "")))
      | _ => .error .attributeError
    else .ok r1

/-- Full flattening of the field list of one (copied) record, parameterized
by the back-reference value stored under the hidden __ErgastResponse key.
The three flattening steps run in source order, then the back-reference cell
is assigned. -/
def flattenFields (backref : JVal) (r : List (String × JVal)) :
    Except PyExc (List (String × JVal)) :=
  match flattenDriver r with
  | .error e => .error e
  | .ok r1 =>
    match flattenConstructors r1 with
    | .error e => .error e
    | .ok r2 =>
      match flattenLocation r2 with
      | .error e => .error e
      | .ok r3 => .ok (dictSet r3 "__ErgastResponse" (backref))

/-- Per-record normalization in the pure value model: the record must be a
mapping (popping on anything else raises; one representative exception class
is used), and the back-reference carries the original record by value. -/
def flattenRecord (orig : JVal) : Except PyExc JVal :=
  match orig with
  | .obj fields =>
    match flattenFields (.respItem orig) fields with
    | .error e => .error e
    | .ok out => .ok (.obj out)
  | _ => .error .attributeError

/-- ErgastResultFrame._prepare_response on a decoded record list: the loop
over indices flattens record i into row i, stopping at the first exception. -/
def prepareResponse : List JVal → Except PyExc (List JVal)
  | [] => .ok []
  | r :: rs =>
    match flattenRecord r with
    | .error e => .error e
    | .ok row =>
      match prepareResponse rs with
      | .error e => .error e
      | .ok rest => .ok (row :: rest)

/-- Reading back the original record referenced by one normalized row
(the row-level part of get_ergast_response): the hidden column is looked up
and its _response attribute returned.  Rows produced by prepareResponse
always carry the hidden column, so the guard of the source method is
represented by the error branches. -/
def responseOfRow (row : JVal) : Except PyExc JVal :=
  match row with
  | .obj f =>
    match dictGet f "__ErgastResponse" with
    | some (.respItem v) => .ok v
    | some _ => .error .attributeError
    | none => .error (.keyError "__ErgastResponse")
  | _ => .error .typeError

/-- ErgastResultFrame.get_ergast_response: the per-row list of original
records recovered from the hidden column. -/
def get_ergast_response : List JVal → Except PyExc (List JVal)
  | [] => .ok []
  | row :: rest =>
    match responseOfRow row with
    | .error e => .error e
    | .ok v =>
      match get_ergast_response rest with
      | .error e => .error e
      | .ok vs => .ok (v :: vs)

/-! ## Selector builder (Ergast.select) -/

/-- The season argument of Ergast.select: the literal token current or a
year number (rendered in decimal inside the f-string). -/
inductive SeasonArg where
  | current
  | year (n : Int)
  deriving DecidableEq, Repr

/-- Rendering of a season argument inside the f-string. -/
def SeasonArg.fmt : SeasonArg → String
  | .current => "current"
  | .year n => toString n

/-- The round argument of Ergast.select: the literal token last or a round
number. -/
inductive RoundArg where
  | last
  | num (n : Int)
  deriving DecidableEq, Repr

/-- Rendering of a round argument inside the f-string. -/
def RoundArg.fmt : RoundArg → String
  | .last => "last"
  | .num n => toString n

/-- Ergast.select: starting from the empty selector, one path segment is
appended for each argument that is not None, in source order (season, round,
circuit, constructor, driver). -/
def select (season : Option SeasonArg) (round : Option RoundArg)
    (circuit : Option String) (constructor : Option String)
    (driver : Option String) : String :=
  let selector := ""
  let selector := match season with
    | some v => selector ++ "/" ++ v.fmt
    | none => selector
  let selector := match round with
    | some v => selector ++ "/" ++ v.fmt
    | none => selector
  let selector := match circuit with
    | some v => selector ++ "/circuits/" ++ v
    | none => selector
  let selector := match constructor with
    | some v => selector ++ "/constructors/" ++ v
    | none => selector
  let selector := match driver with
    | some v => selector ++ "/drivers/" ++ v
    | none => selector
  selector

/-! ## HTTP layer of the selector-scoped accessors -/

/-- Fixed base URL of the remote API. -/
def base_url : String := "https://ergast.com/api/f1"

/-- ErgastSelectionObject._get: one request has already been made (the cache
collaborator returned r); if the status is 200 the payload is decoded,
raising ErgastJsonException naming the URL when the decoder fails, and a
non-200 status raises ErgastInvalidRequest naming the URL.  The JSON decoder
is a parameter (it is library code external to the module). -/
def ergastGet {γ : Type} (decode : γ → Option JVal) (url : String)
    (r : HttpResponse γ) : Except PyExc JVal :=
  if r.status_code = 200 then
    match decode r.content with
    | some v => .ok v
    | none => .error (.ergastJson ("Failed to parse Ergast response (" ++ url ++ ")"))
  else .error (.ergastInvalid ("Invalid request to Ergast (" ++ url ++ ")"))

/-- Python v[key] subscription on a decoded value: a mapping yields the
entry or raises KeyError; subscripting anything else by a string raises (one
representative exception class is used). -/
def jSub (v : JVal) (key : String) : Except PyExc JVal :=
  match v with
  | .obj f =>
    match dictGet f key with
    | some w => .ok w
    | none => .error (.keyError key)
  | _ => .error .typeError

/-- Python v[i] subscription by a non-negative index: a sequence yields the
element or raises IndexError; subscripting anything else by an int raises
(one representative exception class is used). -/
def jIdx (v : JVal) (i : Nat) : Except PyExc JVal :=
  match v with
  | .list l =>
    match l[i]? with
    | some w => .ok w
    | none => .error .indexError
  | _ => .error .typeError

/-- Building an ErgastResultFrame from an extracted response: the response
must be a sequence of records, which is normalized (a non-sequence raises
inside the frame constructor; one representative exception class is used). -/
def buildFrame (resp : JVal) : Except PyExc (List JVal) :=
  match resp with
  | .list recs => prepareResponse recs
  | _ => .error .typeError

/-- ErgastSelectionObject.get_driver_standings: fetch
selector/driverStandings.json, then extract
MRData.StandingsTable.StandingsLists[0].DriverStandings and normalize. -/
def get_driver_standings {γ : Type} (decode : γ → Option JVal)
    (selector : String) (r : HttpResponse γ) : Except PyExc (List JVal) :=
  match ergastGet decode (base_url ++ selector ++ "/driverStandings.json") r with
  | .error e => .error e
  | .ok v =>
    match jSub v "MRData" with
    | .error e => .error e
    | .ok m =>
      match jSub m "StandingsTable" with
      | .error e => .error e
      | .ok t =>
        match jSub t "StandingsLists" with
        | .error e => .error e
        | .ok ls =>
          match jIdx ls 0 with
          | .error e => .error e
          | .ok first =>
            match jSub first "DriverStandings" with
            | .error e => .error e
            | .ok resp => buildFrame resp

/-- ErgastSelectionObject.get_constructor_standings: symmetric to the driver
standings accessor, using constructorStandings.json and the
ConstructorStandings key. -/
def get_constructor_standings {γ : Type} (decode : γ → Option JVal)
    (selector : String) (r : HttpResponse γ) : Except PyExc (List JVal) :=
  match ergastGet decode (base_url ++ selector ++ "/constructorStandings.json") r with
  | .error e => .error e
  | .ok v =>
    match jSub v "MRData" with
    | .error e => .error e
    | .ok m =>
      match jSub m "StandingsTable" with
      | .error e => .error e
      | .ok t =>
        match jSub t "StandingsLists" with
        | .error e => .error e
        | .ok ls =>
          match jIdx ls 0 with
          | .error e => .error e
          | .ok first =>
            match jSub first "ConstructorStandings" with
            | .error e => .error e
            | .ok resp => buildFrame resp

/-! ## Root-level convenience functions -/

/-- The module-level _parse_json_response: on status 200 decode the payload
(a decode failure propagates the decode exception, json.JSONDecodeError
being a ValueError); on any other status emit a warning naming the status
and return None instead of raising.  The second component collects the
warnings emitted. -/
def _parse_json_response {γ : Type} (decode : γ → Option JVal)
    (r : HttpResponse γ) : Except PyExc (Option JVal) × List String :=
  if r.status_code = 200 then
    match decode r.content with
    | some v => (.ok (some v), [])
    | none => (.error .valueError, [])
  else (.ok none, ["Request returned: " ++ toString r.status_code])

/-- The module-level _parse_ergast: data[MRData][RaceTable][Races].
Subscripting None (the degraded result of _parse_json_response) raises a
TypeError. -/
def _parse_ergast (data : Option JVal) : Except PyExc JVal :=
  match data with
  | none => .error .typeError
  | some v =>
    match jSub v "MRData" with
    | .error e => .error e
    | .ok m =>
      match jSub m "RaceTable" with
      | .error e => .error e
      | .ok t => jSub t "Races"

/-- fetch_day: request base/year/gp/day.json and parse it with
_parse_json_response.  The year and gp arguments stand for their rendered
f-string forms; respOf maps each URL to the response the cache collaborator
returns for it. -/
def fetch_day {γ : Type} (decode : γ → Option JVal)
    (respOf : String → HttpResponse γ) (year gp day : String) :
    Except PyExc (Option JVal) × List String :=
  _parse_json_response decode
    (respOf (base_url ++ "/" ++ year ++ "/" ++ gp ++ "/" ++ day ++ ".json"))

/-- fetch_season: request base/year.json, parse it with
_parse_json_response, and extract the race list with _parse_ergast. -/
def fetch_season {γ : Type} (decode : γ → Option JVal)
    (respOf : String → HttpResponse γ) (year : String) :
    Except PyExc JVal × List String :=
  let pr := _parse_json_response decode (respOf (base_url ++ "/" ++ year ++ ".json"))
  (match pr.1 with
   | .error e => .error e
   | .ok d => _parse_ergast d,
   pr.2)

/-- The shared tail of fetch_results once day and sel are bound:
_parse_ergast(fetch_day(year, gp, day))[0][sel]. -/
def fetch_results_via {γ : Type} (decode : γ → Option JVal)
    (respOf : String → HttpResponse γ) (year gp day sel : String) :
    Except PyExc JVal × List String :=
  let fd := fetch_day decode respOf year gp day
  (match fd.1 with
   | .error e => .error e
   | .ok d =>
     match _parse_ergast d with
     | .error e => .error e
     | .ok races =>
       match jIdx races 0 with
       | .error e => .error e
       | .ok first => jSub first sel,
   fd.2)

/-- fetch_results: the if/elif chain binds day and sel from the session
token; when no branch matches, the later read of the never-assigned local
day raises an UnboundLocalError (the source has no else branch). -/
def fetch_results {γ : Type} (decode : γ → Option JVal)
    (respOf : String → HttpResponse γ) (year gp session : String) :
    Except PyExc JVal × List String :=
  if session = "Race" then
    fetch_results_via decode respOf year gp "results" "Results"
  else if session = "Qualifying" then
    fetch_results_via decode respOf year gp "qualifying" "QualifyingResults"
  else if session = "Sprint Qualifying" ∨ session = "Sprint" then
    fetch_results_via decode respOf year gp "sprint" "SprintResults"
  else (.error (.unboundLocal "day"), [])

/-! ## Heap model of _prepare_response for the mutation analysis

Python records are mutable objects.  To state that the normalizer never
mutates its input, records are placed on an explicit heap: a list of cells
addressed by index.  The response is a list of cell addresses; deepcopy
allocates fresh cells (at addresses past the end of the current heap)
holding copies of the record values, the flattening loop writes only to
those fresh cells, and each back-reference stores the address of the
corresponding original cell.  Nested sub-structures live inside the value
held by a cell, so an untouched cell means the record and everything nested
in it is unchanged. -/

/-- The heap: cell values addressed by list index. -/
abbrev Heap : Type := List JVal

/-- The flattening loop of _prepare_response over (copy address, original
address) pairs: the record value in each copy cell is flattened in place,
with the back-reference cell holding the address of the original record.  A
record that is not a mapping, or a flattening step that raises, aborts the
loop with the heap as mutated so far (the exception propagates; the
partially flattened copy cell is not modelled further since no claim
concerns it). -/
def prepLoop (h : Heap) : List (Nat × Nat) → Heap
  | [] => h
  | (da, oa) :: rest =>
    match h.getD da .null with
    | .obj fields =>
      match flattenFields (.respRef oa) fields with
      | .ok out => prepLoop (h.set da (.obj out)) rest
      | .error _ => h
    | _ => h

/-- _prepare_response in the heap model: deepcopy the response records into
fresh cells, then run the flattening loop over the copies.  Returns the new
heap and the addresses of the copied (flattened) rows. -/
def prepareResponseHeap (h : Heap) (respAddrs : List Nat) : Heap × List Nat :=
  let dataAddrs := (List.range respAddrs.length).map (h.length + ·)
  let h1 : Heap := h ++ respAddrs.map (fun a => h.getD a .null)
  (prepLoop h1 (dataAddrs.zip respAddrs), dataAddrs)

/-! ## Lemmas about the dict operations -/

theorem dictGet_dictSet_self (d : List (String × JVal)) (key : String) (v : JVal) :
    dictGet (dictSet d key v) key = some v := by
  induction d with
  | nil => simp [dictSet, dictGet]
  | cons p rest ih =>
    obtain ⟨k, w⟩ := p
    by_cases h : k = key
    · simp [dictSet, dictGet, h]
    · simp [dictSet, dictGet, h, ih]

theorem dictGet_dictSet_ne (d : List (String × JVal)) (key key2 : String) (v : JVal)
    (h : key2 ≠ key) : dictGet (dictSet d key v) key2 = dictGet d key2 := by
  induction d with
  | nil => simp [dictSet, dictGet, Ne.symm h]
  | cons p rest ih =>
    obtain ⟨k, w⟩ := p
    by_cases hk : k = key
    · subst hk
      simp [dictSet, dictGet, Ne.symm h]
    · by_cases hk2 : k = key2
      · simp [dictSet, dictGet, hk, hk2, h]
      · simp [dictSet, dictGet, hk, hk2, ih]

theorem dictGet_dictPop_ne (d : List (String × JVal)) (key key2 : String)
    (h : key2 ≠ key) : dictGet (dictPop d key) key2 = dictGet d key2 := by
  induction d with
  | nil => simp [dictPop]
  | cons p rest ih =>
    obtain ⟨k, w⟩ := p
    by_cases hk : k = key
    · subst hk
      simp [dictPop, dictGet, Ne.symm h]
    · by_cases hk2 : k = key2
      · simp [dictPop, dictGet, hk, hk2, h]
      · simp [dictPop, dictGet, hk, hk2, ih]

theorem dictSet_of_get_none (d : List (String × JVal)) (key : String) (v : JVal)
    (h : dictGet d key = none) : dictSet d key v = d ++ [(key, v)] := by
  induction d with
  | nil => simp [dictSet]
  | cons p rest ih =>
    obtain ⟨k, w⟩ := p
    by_cases hk : k = key
    · simp [dictGet, hk] at h
    · simp [dictGet, hk] at h
      simp [dictSet, hk, ih h]

theorem flattenDriver_get_ne (r r2 : List (String × JVal)) (key : String)
    (h : flattenDriver r = .ok r2) (h1 : key ≠ "Driver") (h2 : key ≠ "DriverNumber") :
    dictGet r2 key = dictGet r key := by
  simp only [flattenDriver] at h
  split at h
  · cases h; rfl
  · split at h
    · split at h
      · cases h
        rw [dictGet_dictSet_ne _ _ _ _ h2, dictGet_dictSet_ne _ _ _ _ h1,
          dictGet_dictPop_ne _ _ _ h1]
      · exact absurd h (by simp)
    · cases h
      exact dictGet_dictPop_ne _ _ _ h1

theorem flattenConstructors_get_ne (r r2 : List (String × JVal)) (key : String)
    (h : flattenConstructors r = .ok r2) (h1 : key ≠ "Constructors") :
    dictGet r2 key = dictGet r key := by
  simp only [flattenConstructors] at h
  split at h
  · cases h; rfl
  · split at h
    · split at h
      · split at h
        · exact absurd h (by simp)
        · cases h
          rw [dictGet_dictSet_ne _ _ _ _ h1, dictGet_dictPop_ne _ _ _ h1]
      · exact absurd h (by simp)
    · cases h
      exact dictGet_dictPop_ne _ _ _ h1

theorem flattenLocation_get_ne (r r2 : List (String × JVal)) (key : String)
    (h : flattenLocation r = .ok r2) (h1 : key ≠ "Location") (h2 : key ≠ "Lat")
    (h3 : key ≠ "Long") (h4 : key ≠ "Locality") (h5 : key ≠ "Country") :
    dictGet r2 key = dictGet r key := by
  simp only [flattenLocation] at h
  split at h
  · cases h; rfl
  · split at h
    · split at h
      · split at h
        · exact absurd h (by simp)
        · split at h
          · exact absurd h (by simp)
          · cases h
            rw [dictGet_dictSet_ne _ _ _ _ h5, dictGet_dictSet_ne _ _ _ _ h4,
              dictGet_dictSet_ne _ _ _ _ h3, dictGet_dictSet_ne _ _ _ _ h2,
              dictGet_dictPop_ne _ _ _ h1]
      · exact absurd h (by simp)
    · cases h
      exact dictGet_dictPop_ne _ _ _ h1

theorem flattenFields_decomp (backref : JVal) (r out : List (String × JVal))
    (h : flattenFields backref r = .ok out) :
    ∃ r1 r2 r3, flattenDriver r = .ok r1 ∧ flattenConstructors r1 = .ok r2 ∧
      flattenLocation r2 = .ok r3 ∧ out = dictSet r3 "__ErgastResponse" backref := by
  simp only [flattenFields] at h
  split at h
  · exact absurd h (by simp)
  next r1 hd =>
    split at h
    · exact absurd h (by simp)
    next r2 hc =>
      split at h
      · exact absurd h (by simp)
      next r3 hl =>
        cases h
        exact ⟨r1, r2, r3, hd, hc, hl, rfl⟩

theorem flattenDriver_obj_inv (r d r1out : List (String × JVal))
    (hg : dictGet r "Driver" = some (.obj d)) (hne : d ≠ [])
    (h : flattenDriver r = .ok r1out) :
    r1out = dictSet (dictSet (dictPop r "Driver") "Driver" (dictGetD d "code" (.str "")))
      "DriverNumber" (dictGetD d "permanentNumber" (.str "")) := by
  have hde : d.isEmpty = false := by
    cases d with
    | nil => exact absurd rfl hne
    | cons p rest => rfl
  simp only [flattenDriver, hg, truthy, hde] at h
  simp at h
  exact h.symm

theorem flattenLocation_obj_inv (r d r3out : List (String × JVal))
    (hg : dictGet r "Location" = some (.obj d)) (hne : d ≠ [])
    (h : flattenLocation r = .ok r3out) :
    ∃ la lo, pyFloat (dictGetD d "lat" (.int 0)) = .ok la ∧
      pyFloat (dictGetD d "long" (.int 0)) = .ok lo ∧
      r3out = dictSet (dictSet (dictSet (dictSet (dictPop r "Location")
        "Lat" (.float la)) "Long" (.float lo))
        "Locality" (dictGetD d "locality" (.str "")))
        "Country" (dictGetD d "country" (.str "")) := by
  have hde : d.isEmpty = false := by
    cases d with
    | nil => exact absurd rfl hne
    | cons p rest => rfl
  simp only [flattenLocation, hg, truthy, hde] at h
  simp only [Bool.not_false, if_true] at h
  split at h
  · exact absurd h (by simp)
  next la hla =>
    split at h
    · exact absurd h (by simp)
    next lo hlo =>
      cases h
      exact ⟨la, lo, hla, hlo, rfl⟩

theorem responseOfRow_of_flatten (orig row : JVal) (h : flattenRecord orig = .ok row) :
    responseOfRow row = .ok orig := by
  unfold flattenRecord at h
  split at h
  next fields =>
    split at h
    · exact absurd h (by simp)
    next out hout =>
      cases h
      obtain ⟨r1, r2, r3, _, _, _, he⟩ := flattenFields_decomp _ _ _ hout
      subst he
      simp [responseOfRow, dictGet_dictSet_self]
  next => exact absurd h (by simp)

theorem prepareResponse_length_order (resp rows : List JVal)
    (h : prepareResponse resp = .ok rows) :
    rows.length = resp.length ∧
      ∀ i, i < resp.length → ∃ r row, resp[i]? = some r ∧ rows[i]? = some row ∧
        flattenRecord r = .ok row := by
  induction resp generalizing rows with
  | nil =>
    simp [prepareResponse] at h
    subst h
    simp
  | cons r rs ih =>
    simp only [prepareResponse] at h
    split at h
    · exact absurd h (by simp)
    next row hr =>
      split at h
      · exact absurd h (by simp)
      next rest hrest =>
        cases h
        obtain ⟨hlen, hidx⟩ := ih rest hrest
        refine ⟨by simp [hlen], ?_⟩
        intro i hi
        cases i with
        | zero => exact ⟨r, row, by simp, by simp, hr⟩
        | succ n =>
          have hn : n < rs.length := by simpa using hi
          obtain ⟨a, b, h1, h2, h3⟩ := hidx n hn
          exact ⟨a, b, by simpa using h1, by simpa using h2, h3⟩

theorem get_ergast_response_of_prepare (resp rows : List JVal)
    (h : prepareResponse resp = .ok rows) :
    get_ergast_response rows = .ok resp := by
  induction resp generalizing rows with
  | nil =>
    simp [prepareResponse] at h
    subst h
    simp [get_ergast_response]
  | cons r rs ih =>
    simp only [prepareResponse] at h
    split at h
    · exact absurd h (by simp)
    next row hr =>
      split at h
      · exact absurd h (by simp)
      next rest hrest =>
        cases h
        simp only [get_ergast_response]
        rw [responseOfRow_of_flatten r row hr, ih rest hrest]

theorem flattenRecord_passthrough (fields : List (String × JVal))
    (hd : dictGet fields "Driver" = none)
    (hc : dictGet fields "Constructors" = none)
    (hl : dictGet fields "Location" = none)
    (hm : dictGet fields "__ErgastResponse" = none) :
    flattenRecord (.obj fields) =
      .ok (.obj (fields ++ [("__ErgastResponse", .respItem (.obj fields))])) := by
  have e1 : flattenDriver fields = .ok fields := by simp [flattenDriver, hd]
  have e2 : flattenConstructors fields = .ok fields := by simp [flattenConstructors, hc]
  have e3 : flattenLocation fields = .ok fields := by simp [flattenLocation, hl]
  simp [flattenRecord, flattenFields, e1, e2, e3, dictSet_of_get_none _ _ _ hm]

/-! ## Key-multiplicity lemmas

An association list stands for a Python dict, so each key occurs at most
once.  The lemmas below track the multiplicity of one key through the dict
operations and the flattening stages, which is what makes the popped key
absent from the result. -/

theorem countP_key_dictPop_le (d : List (String × JVal)) (k key : String) :
    List.countP (fun q => q.1 == key) (dictPop d k) ≤
      List.countP (fun q => q.1 == key) d := by
  induction d with
  | nil => simp [dictPop]
  | cons p rest ih =>
    obtain ⟨k1, w⟩ := p
    by_cases hk : k1 = k
    · simp only [dictPop, hk, if_pos rfl]
      simp [List.countP_cons]
    · simp only [dictPop, if_neg hk]
      simp only [List.countP_cons]
      omega

theorem countP_key_dictSet_ne (d : List (String × JVal)) (k key : String) (v : JVal)
    (h : k ≠ key) :
    List.countP (fun q => q.1 == key) (dictSet d k v) =
      List.countP (fun q => q.1 == key) d := by
  induction d with
  | nil => simp [dictSet, List.countP_cons, h]
  | cons p rest ih =>
    obtain ⟨k1, w⟩ := p
    by_cases hk : k1 = k
    · simp [dictSet, hk, List.countP_cons]
    · simp only [dictSet, if_neg hk, List.countP_cons, ih]

theorem dictGet_eq_none_of_countP_zero (d : List (String × JVal)) (key : String)
    (h : List.countP (fun q => q.1 == key) d = 0) : dictGet d key = none := by
  induction d with
  | nil => rfl
  | cons p rest ih =>
    obtain ⟨k, w⟩ := p
    simp only [List.countP_cons] at h
    by_cases hk : k = key
    · simp [hk] at h
    · simp only [dictGet, if_neg hk]
      exact ih (by omega)

theorem dictGet_dictPop_self (d : List (String × JVal)) (key : String)
    (h : List.countP (fun q => q.1 == key) d ≤ 1) :
    dictGet (dictPop d key) key = none := by
  induction d with
  | nil => rfl
  | cons p rest ih =>
    obtain ⟨k, w⟩ := p
    simp only [List.countP_cons] at h
    by_cases hk : k = key
    · simp only [dictPop, hk, if_pos rfl]
      simp only [hk, beq_self_eq_true, if_pos] at h
      exact dictGet_eq_none_of_countP_zero rest key (by omega)
    · simp only [dictPop, if_neg hk, dictGet]
      exact ih (by simp [hk] at h; omega)

theorem flattenDriver_countP_le (r r1 : List (String × JVal)) (key : String)
    (h : flattenDriver r = .ok r1) (h1 : key ≠ "Driver") (h2 : key ≠ "DriverNumber") :
    List.countP (fun q => q.1 == key) r1 ≤ List.countP (fun q => q.1 == key) r := by
  simp only [flattenDriver] at h
  split at h
  · cases h; exact Nat.le_refl _
  · split at h
    · split at h
      · cases h
        rw [countP_key_dictSet_ne _ _ _ _ (fun he => h2 he.symm),
          countP_key_dictSet_ne _ _ _ _ (fun he => h1 he.symm)]
        exact countP_key_dictPop_le _ _ _
      · exact absurd h (by simp)
    · cases h
      exact countP_key_dictPop_le _ _ _

theorem flattenConstructors_countP_le (r r1 : List (String × JVal)) (key : String)
    (h : flattenConstructors r = .ok r1) (h1 : key ≠ "Constructors") :
    List.countP (fun q => q.1 == key) r1 ≤ List.countP (fun q => q.1 == key) r := by
  simp only [flattenConstructors] at h
  split at h
  · cases h; exact Nat.le_refl _
  · split at h
    · split at h
      · split at h
        · exact absurd h (by simp)
        · cases h
          rw [countP_key_dictSet_ne _ _ _ _ (fun he => h1 he.symm)]
          exact countP_key_dictPop_le _ _ _
      · exact absurd h (by simp)
    · cases h
      exact countP_key_dictPop_le _ _ _

/-! ## Lemmas about the heap model -/

theorem prepLoop_getElem_ne (pairs : List (Nat × Nat)) (h : Heap) (a : Nat)
    (hp : ∀ p ∈ pairs, a ≠ p.1) : (prepLoop h pairs)[a]? = h[a]? := by
  induction pairs generalizing h with
  | nil => rfl
  | cons p rest ih =>
    obtain ⟨da, oa⟩ := p
    have hda : a ≠ da := hp (da, oa) (by simp)
    simp only [prepLoop]
    split
    · split
      · rw [ih _ (fun q hq => hp q (by simp [hq]))]
        exact List.getElem?_set_ne (fun he => hda he.symm)
      · rfl
    · rfl

/-! ## Claim theorems -/

/-- C1: for every combination of the five optional filter arguments, the
selector produced by select is the concatenation of exactly one path segment
per non-null argument, in the fixed order season, round, circuit,
constructor, driver, regardless of which arguments were supplied, and is the
empty string when all five are null. -/
theorem claim1_select_fixed_order :
    (∀ (s : Option SeasonArg) (r : Option RoundArg) (c k d : Option String),
      select s r c k d =
        (match s with | some v => "/" ++ v.fmt | none => "")
        ++ (match r with | some v => "/" ++ v.fmt | none => "")
        ++ (match c with | some v => "/circuits/" ++ v | none => "")
        ++ (match k with | some v => "/constructors/" ++ v | none => "")
        ++ (match d with | some v => "/drivers/" ++ v | none => ""))
    ∧ select none none none none none = "" := by
  constructor
  · intro s r c k d
    cases s <;> cases r <;> cases c <;> cases k <;> cases d <;>
      simp [select, String.append_assoc, String.empty_append]
  · rfl

/-- C2: whenever the normalizer returns a table, it has exactly as many rows
as there are input records and the i-th row is the flattening of the i-th
input record (order preserved). -/
theorem claim2_normalizer_length_order (resp rows : List JVal)
    (h : prepareResponse resp = .ok rows) :
    rows.length = resp.length ∧
      ∀ i, i < resp.length → ∃ r row, resp[i]? = some r ∧ rows[i]? = some row ∧
        flattenRecord r = .ok row :=
  prepareResponse_length_order resp rows h

/-- Witness for C2 at a concrete two-record response. -/
theorem claim2_witness :
    ([JVal.obj [("position", .str "1"),
        ("__ErgastResponse", .respItem (.obj [("position", .str "1")]))],
      JVal.obj [("a", .int 2),
        ("__ErgastResponse", .respItem (.obj [("a", .int 2)]))]].length
      = ([JVal.obj [("position", .str "1")], JVal.obj [("a", .int 2)]]).length)
    ∧ ∀ i, i < ([JVal.obj [("position", .str "1")], JVal.obj [("a", .int 2)]]).length →
        ∃ r row, [JVal.obj [("position", .str "1")], JVal.obj [("a", .int 2)]][i]? = some r ∧
          [JVal.obj [("position", .str "1"),
             ("__ErgastResponse", .respItem (.obj [("position", .str "1")]))],
           JVal.obj [("a", .int 2),
             ("__ErgastResponse", .respItem (.obj [("a", .int 2)]))]][i]? = some row ∧
          flattenRecord r = .ok row :=
  claim2_normalizer_length_order
    [JVal.obj [("position", .str "1")], JVal.obj [("a", .int 2)]]
    [JVal.obj [("position", .str "1"),
       ("__ErgastResponse", .respItem (.obj [("position", .str "1")]))],
     JVal.obj [("a", .int 2),
       ("__ErgastResponse", .respItem (.obj [("a", .int 2)]))]]
    (by rfl)

/-- C3 counterexample: a record whose Driver sub-structure is present but
empty.  The pop removes the sub-structure, but the walrus-if sees a falsy
value and skips the update, so the normalized row has no Driver column at
all, contradicting the claim that a present Driver sub-structure lacking the
code field still yields the Driver column with the default value. -/
theorem claim3_counterexample :
    dictGet [("Driver", JVal.obj [])] "Driver" = some (.obj []) ∧
    flattenRecord (.obj [("Driver", .obj [])]) =
      .ok (.obj [("__ErgastResponse", .respItem (.obj [("Driver", .obj [])]))]) ∧
    dictGet [("__ErgastResponse",
      JVal.respItem (.obj [("Driver", .obj [])]))] "Driver" = none :=
  ⟨rfl, rfl, rfl⟩

/-- C3 as amended: for every record whose Driver sub-structure is present
and non-empty (truthy), normalization replaces it by the column Driver = its
code field and adds DriverNumber = its permanentNumber field, each
defaulting to the empty string when the sub-field is missing; in particular
a non-empty Driver sub-structure lacking code still yields the Driver column
with the default value.  (A present but empty sub-structure is removed
without adding the columns, as the counterexample shows.) -/
theorem claim3_driver_columns (fields d row : List (String × JVal))
    (hg : dictGet fields "Driver" = some (.obj d)) (hne : d ≠ [])
    (hok : flattenRecord (.obj fields) = .ok (.obj row)) :
    dictGet row "Driver" = some (dictGetD d "code" (.str "")) ∧
    dictGet row "DriverNumber" = some (dictGetD d "permanentNumber" (.str "")) ∧
    (dictGet d "code" = none → dictGet row "Driver" = some (.str "")) := by
  have hff : flattenFields (.respItem (.obj fields)) fields = .ok row := by
    simp only [flattenRecord] at hok
    split at hok
    · exact absurd hok (by simp)
    next out hout =>
      simp only [Except.ok.injEq, JVal.obj.injEq] at hok
      rw [← hok]
      exact hout
  obtain ⟨r1, r2, r3, hd1, hc1, hl1, he⟩ := flattenFields_decomp _ _ _ hff
  have hr1 := flattenDriver_obj_inv fields d r1 hg hne hd1
  have g1 : dictGet r1 "Driver" = some (dictGetD d "code" (.str "")) := by
    rw [hr1, dictGet_dictSet_ne _ _ _ _ (by decide), dictGet_dictSet_self]
  have g2 : dictGet r1 "DriverNumber" = some (dictGetD d "permanentNumber" (.str "")) := by
    rw [hr1, dictGet_dictSet_self]
  have p1 : dictGet row "Driver" = some (dictGetD d "code" (.str "")) := by
    rw [he, dictGet_dictSet_ne _ _ _ _ (by decide),
      flattenLocation_get_ne _ _ _ hl1 (by decide) (by decide) (by decide) (by decide)
        (by decide),
      flattenConstructors_get_ne _ _ _ hc1 (by decide), g1]
  have p2 : dictGet row "DriverNumber" = some (dictGetD d "permanentNumber" (.str "")) := by
    rw [he, dictGet_dictSet_ne _ _ _ _ (by decide),
      flattenLocation_get_ne _ _ _ hl1 (by decide) (by decide) (by decide) (by decide)
        (by decide),
      flattenConstructors_get_ne _ _ _ hc1 (by decide), g2]
  refine ⟨p1, p2, fun hcode => ?_⟩
  rw [p1]
  simp [dictGetD, hcode]

/-- Witness for the amended C3 at a concrete record whose Driver
sub-structure lacks the code field: the Driver column is present with the
default empty string. -/
theorem claim3_witness :
    dictGet [("Driver", JVal.str ""), ("DriverNumber", .str "44"),
        ("__ErgastResponse",
          .respItem (.obj [("Driver", .obj [("permanentNumber", .str "44")])]))]
      "Driver" = some (.str "") ∧
    dictGet [("Driver", JVal.str ""), ("DriverNumber", .str "44"),
        ("__ErgastResponse",
          .respItem (.obj [("Driver", .obj [("permanentNumber", .str "44")])]))]
      "DriverNumber" = some (.str "44") ∧
    (dictGet [("permanentNumber", JVal.str "44")] "code" = none →
      dictGet [("Driver", JVal.str ""), ("DriverNumber", .str "44"),
          ("__ErgastResponse",
            .respItem (.obj [("Driver", .obj [("permanentNumber", .str "44")])]))]
        "Driver" = some (.str "")) :=
  claim3_driver_columns [("Driver", .obj [("permanentNumber", .str "44")])]
    [("permanentNumber", .str "44")]
    [("Driver", .str ""), ("DriverNumber", .str "44"),
     ("__ErgastResponse",
       .respItem (.obj [("Driver", .obj [("permanentNumber", .str "44")])]))]
    rfl (by simp) (by rfl)

/-- C4 counterexample: a record whose Location sub-structure is present but
empty.  The pop removes it, the walrus-if sees a falsy value and skips the
update, so no Lat/Long/Locality/Country columns are added, contradicting the
claim that a present Location missing lat/long yields Lat/Long with default
0.0. -/
theorem claim4_counterexample :
    dictGet [("Location", JVal.obj [])] "Location" = some (.obj []) ∧
    flattenRecord (.obj [("Location", .obj [])]) =
      .ok (.obj [("__ErgastResponse", .respItem (.obj [("Location", .obj [])]))]) ∧
    dictGet [("__ErgastResponse",
      JVal.respItem (.obj [("Location", .obj [])]))] "Lat" = none :=
  ⟨rfl, rfl, rfl⟩

/-- C4 as amended: for every record whose Location sub-structure is present
and non-empty (truthy), normalization removes it (the row has no Location
column; the record, being a Python dict, holds the Location key at most
once) and adds the four columns Lat and Long (the float conversion of the
lat/long sub-fields, defaulting to float(0) = 0.0 when missing) and Locality
and Country (defaulting to the empty string).  (A present but empty
sub-structure is removed without adding the columns, as the counterexample
shows.) -/
theorem claim4_location_columns (fields d row : List (String × JVal))
    (hg : dictGet fields "Location" = some (.obj d)) (hne : d ≠ [])
    (hone : List.countP (fun q => q.1 == "Location") fields ≤ 1)
    (hok : flattenRecord (.obj fields) = .ok (.obj row)) :
    dictGet row "Location" = none ∧
    ∃ la lo, pyFloat (dictGetD d "lat" (.int 0)) = .ok la ∧
      pyFloat (dictGetD d "long" (.int 0)) = .ok lo ∧
      dictGet row "Lat" = some (.float la) ∧
      dictGet row "Long" = some (.float lo) ∧
      dictGet row "Locality" = some (dictGetD d "locality" (.str "")) ∧
      dictGet row "Country" = some (dictGetD d "country" (.str "")) ∧
      (dictGet d "lat" = none → la = .ofInt 0) ∧
      (dictGet d "long" = none → lo = .ofInt 0) := by
  have hff : flattenFields (.respItem (.obj fields)) fields = .ok row := by
    simp only [flattenRecord] at hok
    split at hok
    · exact absurd hok (by simp)
    next out hout =>
      simp only [Except.ok.injEq, JVal.obj.injEq] at hok
      rw [← hok]
      exact hout
  obtain ⟨r1, r2, r3, hd1, hc1, hl1, he⟩ := flattenFields_decomp _ _ _ hff
  have hL1 : dictGet r1 "Location" = some (.obj d) := by
    rw [flattenDriver_get_ne _ _ _ hd1 (by decide) (by decide)]
    exact hg
  have hL2 : dictGet r2 "Location" = some (.obj d) := by
    rw [flattenConstructors_get_ne _ _ _ hc1 (by decide)]
    exact hL1
  obtain ⟨la, lo, hla, hlo, hr3⟩ := flattenLocation_obj_inv r2 d r3 hL2 hne hl1
  have hcnt2 : List.countP (fun q => q.1 == "Location") r2 ≤ 1 :=
    Nat.le_trans
      (Nat.le_trans
        (flattenConstructors_countP_le r1 r2 "Location" hc1 (by decide))
        (flattenDriver_countP_le fields r1 "Location" hd1 (by decide) (by decide)))
      hone
  have gGone : dictGet r3 "Location" = none := by
    rw [hr3, dictGet_dictSet_ne _ _ _ _ (by decide), dictGet_dictSet_ne _ _ _ _ (by decide),
      dictGet_dictSet_ne _ _ _ _ (by decide), dictGet_dictSet_ne _ _ _ _ (by decide)]
    exact dictGet_dictPop_self r2 "Location" hcnt2
  have gLat : dictGet r3 "Lat" = some (.float la) := by
    rw [hr3, dictGet_dictSet_ne _ _ _ _ (by decide), dictGet_dictSet_ne _ _ _ _ (by decide),
      dictGet_dictSet_ne _ _ _ _ (by decide), dictGet_dictSet_self]
  have gLong : dictGet r3 "Long" = some (.float lo) := by
    rw [hr3, dictGet_dictSet_ne _ _ _ _ (by decide), dictGet_dictSet_ne _ _ _ _ (by decide),
      dictGet_dictSet_self]
  have gLoc : dictGet r3 "Locality" = some (dictGetD d "locality" (.str "")) := by
    rw [hr3, dictGet_dictSet_ne _ _ _ _ (by decide), dictGet_dictSet_self]
  have gCountry : dictGet r3 "Country" = some (dictGetD d "country" (.str "")) := by
    rw [hr3, dictGet_dictSet_self]
  refine ⟨?_, la, lo, hla, hlo, ?_, ?_, ?_, ?_, ?_, ?_⟩
  · rw [he, dictGet_dictSet_ne _ _ _ _ (by decide), gGone]
  · rw [he, dictGet_dictSet_ne _ _ _ _ (by decide), gLat]
  · rw [he, dictGet_dictSet_ne _ _ _ _ (by decide), gLong]
  · rw [he, dictGet_dictSet_ne _ _ _ _ (by decide), gLoc]
  · rw [he, dictGet_dictSet_ne _ _ _ _ (by decide), gCountry]
  · intro hmiss
    simp [dictGetD, hmiss, pyFloat] at hla
    exact hla.symm
  · intro hmiss
    simp [dictGetD, hmiss, pyFloat] at hlo
    exact hlo.symm

/-- Witness for the amended C4 at a concrete record whose Location
sub-structure lacks lat and long: the Location column is gone and Lat and
Long both default to float(0). -/
theorem claim4_witness :
    dictGet [("circuitId", JVal.str "monza"), ("Lat", .float (.ofInt 0)),
        ("Long", .float (.ofInt 0)), ("Locality", .str "X"), ("Country", .str ""),
        ("__ErgastResponse", .respItem (.obj [("Location", .obj [("locality", .str "X")]),
          ("circuitId", .str "monza")]))]
      "Location" = none ∧
    ∃ la lo,
      pyFloat (dictGetD [("locality", JVal.str "X")] "lat" (.int 0)) = .ok la ∧
      pyFloat (dictGetD [("locality", JVal.str "X")] "long" (.int 0)) = .ok lo ∧
      dictGet [("circuitId", JVal.str "monza"), ("Lat", .float (.ofInt 0)),
          ("Long", .float (.ofInt 0)), ("Locality", .str "X"), ("Country", .str ""),
          ("__ErgastResponse", .respItem (.obj [("Location", .obj [("locality", .str "X")]),
            ("circuitId", .str "monza")]))]
        "Lat" = some (.float la) ∧
      dictGet [("circuitId", JVal.str "monza"), ("Lat", .float (.ofInt 0)),
          ("Long", .float (.ofInt 0)), ("Locality", .str "X"), ("Country", .str ""),
          ("__ErgastResponse", .respItem (.obj [("Location", .obj [("locality", .str "X")]),
            ("circuitId", .str "monza")]))]
        "Long" = some (.float lo) ∧
      dictGet [("circuitId", JVal.str "monza"), ("Lat", .float (.ofInt 0)),
          ("Long", .float (.ofInt 0)), ("Locality", .str "X"), ("Country", .str ""),
          ("__ErgastResponse", .respItem (.obj [("Location", .obj [("locality", .str "X")]),
            ("circuitId", .str "monza")]))]
        "Locality" = some (dictGetD [("locality", JVal.str "X")] "locality" (.str "")) ∧
      dictGet [("circuitId", JVal.str "monza"), ("Lat", .float (.ofInt 0)),
          ("Long", .float (.ofInt 0)), ("Locality", .str "X"), ("Country", .str ""),
          ("__ErgastResponse", .respItem (.obj [("Location", .obj [("locality", .str "X")]),
            ("circuitId", .str "monza")]))]
        "Country" = some (dictGetD [("locality", JVal.str "X")] "country" (.str "")) ∧
      (dictGet [("locality", JVal.str "X")] "lat" = none → la = .ofInt 0) ∧
      (dictGet [("locality", JVal.str "X")] "long" = none → lo = .ofInt 0) :=
  claim4_location_columns
    [("Location", .obj [("locality", .str "X")]), ("circuitId", .str "monza")]
    [("locality", .str "X")]
    [("circuitId", .str "monza"), ("Lat", .float (.ofInt 0)), ("Long", .float (.ofInt 0)),
     ("Locality", .str "X"), ("Country", .str ""),
     ("__ErgastResponse", .respItem (.obj [("Location", .obj [("locality", .str "X")]),
       ("circuitId", .str "monza")]))]
    rfl (by simp) (by decide) (by rfl)

/-- C5: a record carrying none of the three special sub-structures (nor the
internal back-reference key, which no API payload contains) is passed
through unchanged, with only the hidden back-reference cell appended; and on
every normalized table the back-reference accessor returns exactly the
original response records. -/
theorem claim5_passthrough_and_backref :
    (∀ fields : List (String × JVal),
      dictGet fields "Driver" = none →
      dictGet fields "Constructors" = none →
      dictGet fields "Location" = none →
      dictGet fields "__ErgastResponse" = none →
      flattenRecord (.obj fields) =
        .ok (.obj (fields ++ [("__ErgastResponse", .respItem (.obj fields))])))
    ∧ ∀ resp rows, prepareResponse resp = .ok rows →
        get_ergast_response rows = .ok resp :=
  ⟨fun fields hd hc hl hm => flattenRecord_passthrough fields hd hc hl hm,
   fun resp rows h => get_ergast_response_of_prepare resp rows h⟩

/-- Witness for C5 at a concrete record without special sub-structures. -/
theorem claim5_witness :
    flattenRecord (.obj [("position", .str "1")]) =
      .ok (.obj ([("position", JVal.str "1")] ++
        [("__ErgastResponse", .respItem (.obj [("position", .str "1")]))]))
    ∧ get_ergast_response
        [JVal.obj [("position", .str "1"),
          ("__ErgastResponse", .respItem (.obj [("position", .str "1")]))]]
      = .ok [.obj [("position", .str "1")]] :=
  ⟨claim5_passthrough_and_backref.1 [("position", .str "1")] rfl rfl rfl rfl,
   claim5_passthrough_and_backref.2 [.obj [("position", .str "1")]]
     [JVal.obj [("position", .str "1"),
       ("__ErgastResponse", .respItem (.obj [("position", .str "1")]))]]
     (by rfl)⟩

/-- C6: for every selector-scoped accessor request, the result of _get is
exactly one of three outcomes: status 200 with a successful decode returns
the decoded structure; status 200 with a failed decode raises
ErgastJsonException whose message carries the request URL; any other status
raises ErgastInvalidRequest whose message carries the URL.  The final
disjunction states that no other outcome occurs; _get performs no retry (it
is a function of the single response it received). -/
theorem claim6_get_outcomes {γ : Type} (decode : γ → Option JVal) (url : String)
    (r : HttpResponse γ) :
    (∀ v, r.status_code = 200 → decode r.content = some v →
      ergastGet decode url r = .ok v) ∧
    (r.status_code = 200 → decode r.content = none →
      ergastGet decode url r =
        .error (.ergastJson ("Failed to parse Ergast response (" ++ url ++ ")"))) ∧
    (r.status_code ≠ 200 →
      ergastGet decode url r =
        .error (.ergastInvalid ("Invalid request to Ergast (" ++ url ++ ")"))) ∧
    ((∃ v, decode r.content = some v ∧ ergastGet decode url r = .ok v) ∨
      ergastGet decode url r =
        .error (.ergastJson ("Failed to parse Ergast response (" ++ url ++ ")")) ∨
      ergastGet decode url r =
        .error (.ergastInvalid ("Invalid request to Ergast (" ++ url ++ ")"))) := by
  refine ⟨?_, ?_, ?_, ?_⟩
  · intro v h200 hdec
    simp [ergastGet, h200, hdec]
  · intro h200 hdec
    simp [ergastGet, h200, hdec]
  · intro hne
    simp [ergastGet, hne]
  · by_cases h200 : r.status_code = 200
    · cases hdec : decode r.content with
      | none => exact Or.inr (Or.inl (by simp [ergastGet, h200, hdec]))
      | some v => exact Or.inl ⟨v, rfl, by simp [ergastGet, h200, hdec]⟩
    · exact Or.inr (Or.inr (by simp [ergastGet, h200]))

/-- Witness for C6: a 200 response with a decodable payload returns the
decoded value, and a 404 response raises ErgastInvalidRequest carrying the
URL. -/
theorem claim6_witness :
    ergastGet (fun _ : Unit => some .null) "u" ⟨200, ()⟩ = .ok .null ∧
    ergastGet (fun _ : Unit => none) "u" ⟨404, ()⟩ =
      .error (.ergastInvalid ("Invalid request to Ergast (" ++ "u" ++ ")")) :=
  ⟨(claim6_get_outcomes (fun _ : Unit => some .null) "u" ⟨200, ()⟩).1 .null rfl rfl,
   (claim6_get_outcomes (fun _ : Unit => none) "u" ⟨404, ()⟩).2.2.1 (by decide)⟩

/-- C7 counterexample: against a decoded response whose StandingsLists is
the empty list, get_driver_standings raises an IndexError (from subscripting
the empty list at index 0), not a dedicated EmptyStandings error; the module
defines no such error class (its only exception classes are
ErgastJsonException and ErgastInvalidRequest). -/
theorem claim7_counterexample :
    get_driver_standings
      (fun _ : Unit => some (.obj [("MRData", .obj [("StandingsTable",
        .obj [("StandingsLists", .list [])])])]))
      "" ⟨200, ()⟩ = .error .indexError :=
  rfl

/-- C7 as amended: for every response whose StandingsTable.StandingsLists is
an empty list, get_driver_standings (and symmetrically
get_constructor_standings) raises an IndexError from indexing the first
element of the empty list; the empty-standings condition surfaces as this
opaque index error, not as a dedicated EmptyStandings error. -/
theorem claim7_empty_standings_raise {γ : Type} (decode : γ → Option JVal)
    (sel : String) (r : HttpResponse γ) (v m t : JVal)
    (h200 : r.status_code = 200) (hdec : decode r.content = some v)
    (h1 : jSub v "MRData" = .ok m) (h2 : jSub m "StandingsTable" = .ok t)
    (h3 : jSub t "StandingsLists" = .ok (.list [])) :
    get_driver_standings decode sel r = .error .indexError ∧
    get_constructor_standings decode sel r = .error .indexError := by
  have hget : ∀ url, ergastGet decode url r = .ok v := fun url => by
    simp [ergastGet, h200, hdec]
  constructor
  · simp [get_driver_standings, hget, h1, h2, h3, jIdx]
  · simp [get_constructor_standings, hget, h1, h2, h3, jIdx]

/-- Witness for the amended C7 at a concrete empty-standings response. -/
theorem claim7_witness :
    get_driver_standings
      (fun _ : Unit => some (.obj [("MRData", .obj [("StandingsTable",
        .obj [("StandingsLists", .list []), ("season", .str "2050")])])]))
      "/2050" ⟨200, ()⟩ = .error .indexError ∧
    get_constructor_standings
      (fun _ : Unit => some (.obj [("MRData", .obj [("StandingsTable",
        .obj [("StandingsLists", .list []), ("season", .str "2050")])])]))
      "/2050" ⟨200, ()⟩ = .error .indexError :=
  claim7_empty_standings_raise
    (fun _ : Unit => some (.obj [("MRData", .obj [("StandingsTable",
      .obj [("StandingsLists", .list []), ("season", .str "2050")])])]))
    "/2050" ⟨200, ()⟩
    (.obj [("MRData", .obj [("StandingsTable",
      .obj [("StandingsLists", .list []), ("season", .str "2050")])])])
    (.obj [("StandingsTable", .obj [("StandingsLists", .list []), ("season", .str "2050")])])
    (.obj [("StandingsLists", .list []), ("season", .str "2050")])
    rfl rfl rfl rfl rfl

/-- C8 counterexample: on a 404 the season fetch does emit the warning, but
it then raises a TypeError instead of returning an absent/empty result: the
None produced by _parse_json_response is subscripted by _parse_ergast. -/
theorem claim8_counterexample :
    fetch_season (fun _ : Unit => none) (fun _ => ⟨404, ()⟩) "2022" =
      (.error .typeError, ["Request returned: " ++ toString 404]) :=
  rfl

/-- C8 as amended: for every non-200 status the season fetch emits the
non-fatal warning naming the status, but then raises a TypeError when the
absent result is subscripted by _parse_ergast; the selector-scoped accessors
raise ErgastInvalidRequest carrying the URL for the same status.  (Only the
raw day-level fetch returns the absent result without raising.) -/
theorem claim8_fetch_season_raises {γ : Type} (decode : γ → Option JVal)
    (respOf : String → HttpResponse γ) (year : String)
    (hs : (respOf (base_url ++ "/" ++ year ++ ".json")).status_code ≠ 200) :
    fetch_season decode respOf year =
      (.error .typeError,
       ["Request returned: " ++
         toString (respOf (base_url ++ "/" ++ year ++ ".json")).status_code]) ∧
    (∀ (url : String) (r : HttpResponse γ), r.status_code ≠ 200 →
      ergastGet decode url r =
        .error (.ergastInvalid ("Invalid request to Ergast (" ++ url ++ ")"))) ∧
    (∀ gp day,
      HttpResponse.status_code
          (respOf (base_url ++ "/" ++ year ++ "/" ++ gp ++ "/" ++ day ++ ".json")) ≠ 200 →
      fetch_day decode respOf year gp day =
        (.ok none,
         ["Request returned: " ++
           toString (HttpResponse.status_code
             (respOf (base_url ++ "/" ++ year ++ "/" ++ gp ++ "/" ++ day ++ ".json")))])) := by
  refine ⟨?_, ?_, ?_⟩
  · simp [fetch_season, _parse_json_response, _parse_ergast, hs]
  · intro url r hr
    simp [ergastGet, hr]
  · intro gp day hd
    simp [fetch_day, _parse_json_response, hd]

/-- Witness for the amended C8 at a concrete 404. -/
theorem claim8_witness :
    fetch_season (fun _ : Unit => none) (fun _ => ⟨404, ()⟩) "2023" =
      (.error .typeError,
       ["Request returned: " ++
         toString (HttpResponse.status_code (γ := Unit) ⟨404, ()⟩)]) ∧
    (∀ (url : String) (r : HttpResponse Unit), r.status_code ≠ 200 →
      ergastGet (fun _ : Unit => none) url r =
        .error (.ergastInvalid ("Invalid request to Ergast (" ++ url ++ ")"))) ∧
    (∀ gp day, (HttpResponse.status_code (γ := Unit) ⟨404, ()⟩) ≠ 200 →
      fetch_day (fun _ : Unit => none) (fun _ => ⟨404, ()⟩) "2023" gp day =
        (.ok none,
         ["Request returned: " ++ toString (HttpResponse.status_code (γ := Unit) ⟨404, ()⟩)])) :=
  claim8_fetch_season_raises (fun _ : Unit => none) (fun _ => ⟨404, ()⟩) "2023" (by decide)

/-- C9 counterexample: an unrecognized session token falls through every
branch of the if/elif chain, so the later use of the never-assigned local
day raises an UnboundLocalError, not a dedicated UnrecognizedSession error;
the module defines no such error class. -/
theorem claim9_counterexample :
    fetch_results (fun _ : Unit => none) (fun _ => ⟨200, ()⟩) "2022" "1" "Practice" =
      (.error (.unboundLocal "day"), []) :=
  rfl

/-- C9 as amended: the session token Race maps to day results and key
Results, Qualifying to qualifying/QualifyingResults, Sprint and Sprint
Qualifying to sprint/SprintResults, and any other token raises an
UnboundLocalError (the if/elif chain has no else branch assigning day/sel),
not a dedicated UnrecognizedSession error. -/
theorem claim9_session_mapping {γ : Type} (decode : γ → Option JVal)
    (respOf : String → HttpResponse γ) (year gp session : String) :
    (session = "Race" →
      fetch_results decode respOf year gp session =
        fetch_results_via decode respOf year gp "results" "Results") ∧
    (session = "Qualifying" →
      fetch_results decode respOf year gp session =
        fetch_results_via decode respOf year gp "qualifying" "QualifyingResults") ∧
    (session = "Sprint" ∨ session = "Sprint Qualifying" →
      fetch_results decode respOf year gp session =
        fetch_results_via decode respOf year gp "sprint" "SprintResults") ∧
    (session ≠ "Race" → session ≠ "Qualifying" → session ≠ "Sprint" →
      session ≠ "Sprint Qualifying" →
      fetch_results decode respOf year gp session =
        (.error (.unboundLocal "day"), [])) := by
  refine ⟨?_, ?_, ?_, ?_⟩
  · intro h
    subst h
    rfl
  · intro h
    subst h
    rfl
  · intro h
    cases h with
    | inl h => subst h; rfl
    | inr h => subst h; rfl
  · intro h1 h2 h3 h4
    simp [fetch_results, h1, h2, h3, h4]

/-- Witness for the amended C9: the Sprint token and an unrecognized token
at concrete arguments. -/
theorem claim9_witness :
    fetch_results (fun _ : Unit => none) (fun _ => ⟨200, ()⟩) "2022" "1" "Sprint" =
      fetch_results_via (fun _ : Unit => none) (fun _ => ⟨200, ()⟩) "2022" "1"
        "sprint" "SprintResults" ∧
    fetch_results (fun _ : Unit => none) (fun _ => ⟨200, ()⟩) "2022" "1" "FP1" =
      (.error (.unboundLocal "day"), []) :=
  ⟨(claim9_session_mapping (fun _ : Unit => none) (fun _ => ⟨200, ()⟩)
      "2022" "1" "Sprint").2.2.1 (Or.inl rfl),
   (claim9_session_mapping (fun _ : Unit => none) (fun _ => ⟨200, ()⟩)
      "2022" "1" "FP1").2.2.2 (by decide) (by decide) (by decide) (by decide)⟩

/-- C10: normalization never mutates its input.  In the heap model every
cell that existed before the call, and in particular every cell holding an
input record together with everything nested inside it, holds the same value
after _prepare_response: flattening writes only to the freshly allocated
deep-copy cells, while the back-references store addresses of the untouched
originals. -/
theorem claim10_no_input_mutation (h : Heap) (respAddrs : List Nat) (a : Nat)
    (ha : a < h.length) : (prepareResponseHeap h respAddrs).1[a]? = h[a]? := by
  simp only [prepareResponseHeap]
  rw [prepLoop_getElem_ne]
  · rw [List.getElem?_append, if_pos ha]
  · intro p hp
    obtain ⟨x, y⟩ := p
    have h1 := (List.of_mem_zip hp).1
    simp only [List.mem_map, List.mem_range] at h1
    obtain ⟨i, hi, hpe⟩ := h1
    simp only []
    omega

/-- Witness for C10 at a concrete one-record heap. -/
theorem claim10_witness :
    (prepareResponseHeap [JVal.obj [("p", .str "1")]] [0]).1[0]? =
      ([JVal.obj [("p", .str "1")]] : Heap)[0]? :=
  claim10_no_input_mutation [JVal.obj [("p", .str "1")]] [0] 0 (by decide)

end Ergast
